import Mathlib

/-!
Shallow embedding of two ingestion cores of the hsinghkalsi/vector
repository: the exec source (src/sources/exec/mod.rs) and the TCP source
utilities (src/sources/util/tcp.rs).  Pure functions are translated
directly; the asynchronous loops are modelled as deterministic functions
over explicit input traces (the sequence of values the loop would receive
from its channel, reader or decoder) with oracle functions standing for
the outcomes of the fallible sink sends and socket writes.
-/

namespace Exec

/-- Mode enum from src/sources/exec/mod.rs. -/
inductive Mode
  | Scheduled
  | Streaming
deriving DecidableEq

/-- ScheduledConfig from src/sources/exec/mod.rs. -/
structure ScheduledConfig where
  exec_interval_secs : Nat
deriving DecidableEq

/-- StreamingConfig from src/sources/exec/mod.rs. -/
structure StreamingConfig where
  respawn_on_exit : Bool
  respawn_interval_secs : Nat
deriving DecidableEq

/-- ExecConfig from src/sources/exec/mod.rs.  Machine integers (u64, usize)
are modelled as Nat; the values involved never overflow in the modelled
paths.  PathBuf is modelled as String. -/
structure ExecConfig where
  mode : Mode
  scheduled : Option ScheduledConfig
  streaming : Option StreamingConfig
  command : List String
  working_directory : Option String
  include_stderr : Bool
  event_per_line : Bool
  maximum_buffer_size_bytes : Nat
deriving DecidableEq

/-- ExecConfigError from src/sources/exec/mod.rs. -/
inductive ExecConfigError
  | CommandEmpty
  | ZeroBuffer
deriving DecidableEq

def default_maximum_buffer_size : Nat := 1000000

def default_exec_interval_secs : Nat := 60

def default_respawn_interval_secs : Nat := 5

def default_respawn_on_exit : Bool := true

def default_include_stderr : Bool := true

def default_events_per_line : Bool := true

/-- Default impl for ExecConfig from src/sources/exec/mod.rs. -/
def ExecConfig.default : ExecConfig :=
  { mode := Mode.Scheduled
    scheduled := some { exec_interval_secs := default_exec_interval_secs }
    streaming := none
    command := ["echo", "Hello World!"]
    working_directory := none
    include_stderr := default_include_stderr
    event_per_line := default_events_per_line
    maximum_buffer_size_bytes := default_maximum_buffer_size }

/-- ExecConfig::validate from src/sources/exec/mod.rs lines 138-146. -/
def ExecConfig.validate (c : ExecConfig) : Except ExecConfigError Unit :=
  if c.command.isEmpty then Except.error ExecConfigError.CommandEmpty
  else if c.maximum_buffer_size_bytes = 0 then Except.error ExecConfigError.ZeroBuffer
  else Except.ok ()

/-- ExecConfig::command_line from src/sources/exec/mod.rs: self.command.join(" "). -/
def ExecConfig.command_line (c : ExecConfig) : String :=
  String.intercalate " " c.command

/-- ExecConfig::exec_interval_secs_or_default from src/sources/exec/mod.rs. -/
def ExecConfig.exec_interval_secs_or_default (c : ExecConfig) : Nat :=
  match c.scheduled with
  | none => default_exec_interval_secs
  | some config => config.exec_interval_secs

/-- ExecConfig::respawn_on_exit_or_default from src/sources/exec/mod.rs. -/
def ExecConfig.respawn_on_exit_or_default (c : ExecConfig) : Bool :=
  match c.streaming with
  | none => default_respawn_on_exit
  | some config => config.respawn_on_exit

/-- ExecConfig::respawn_interval_secs_or_default from src/sources/exec/mod.rs. -/
def ExecConfig.respawn_interval_secs_or_default (c : ExecConfig) : Nat :=
  match c.streaming with
  | none => default_respawn_interval_secs
  | some config => config.respawn_interval_secs

/-- Result of SourceConfig::build for the exec source: the source future the
build returns, identified by the mode it will run in and the parameters it
was given (run_scheduled or run_streaming call in lines 180-203). -/
inductive BuiltSource
  | scheduled (exec_interval_secs : Nat)
  | streaming (respawn_on_exit : Bool) (respawn_interval_secs : Nat)
deriving DecidableEq

/-- SourceConfig::build for ExecConfig from src/sources/exec/mod.rs lines
177-204: validate first (the question-mark operator propagates the
configuration error), then dispatch on the mode. -/
def ExecConfig.build (c : ExecConfig) : Except ExecConfigError BuiltSource :=
  match c.validate with
  | Except.error e => Except.error e
  | Except.ok _ =>
    match c.mode with
    | Mode.Scheduled => Except.ok (BuiltSource.scheduled c.exec_interval_secs_or_default)
    | Mode.Streaming =>
      Except.ok (BuiltSource.streaming c.respawn_on_exit_or_default
        c.respawn_interval_secs_or_default)

/-- Value stored in a LogEvent field.  The exec source only ever stores byte
payloads, timestamps, signed integers, strings and string arrays. -/
inductive Value
  | bytes (s : String)
  | timestamp (t : Nat)
  | int (i : Int)
  | str (s : String)
  | strArray (l : List String)
deriving DecidableEq

/-- LogEvent modelled as an association list of fields in insertion order. -/
abbrev LogEvent := List (String × Value)

/-- LogEvent::insert: replace the value when the key is already present,
otherwise add the field. -/
def LogEvent.insert (ev : LogEvent) (k : String) (v : Value) : LogEvent :=
  if ev.any (fun p => p.1 == k) then
    ev.map (fun p => if p.1 == k then (k, v) else p)
  else ev ++ [(k, v)]

/-- log_schema().message_key() default. -/
def message_key : String := "message"

/-- log_schema().timestamp_key() default. -/
def timestamp_key : String := "timestamp"

/-- log_schema().source_type_key() default. -/
def source_type_key : String := "source_type"

/-- log_schema().host_key() default. -/
def host_key : String := "host"

/-- STREAM_KEY literal from src/sources/exec/mod.rs. -/
def STREAM_KEY : String := "stream"

/-- PID_KEY literal from src/sources/exec/mod.rs. -/
def PID_KEY : String := "pid"

/-- COMMAND_KEY literal from src/sources/exec/mod.rs. -/
def COMMAND_KEY : String := "command"

/-- Telemetry events emitted by the exec source (src/internal_events). -/
inductive ExecEmission
  | execEventReceived (command : String) (byte_size : Nat)
  | execCommandExecuted (command : String) (exit_status : Option Int) (exec_duration : Nat)
  | execFailed (command : String)
  | execTimeout (command : String) (elapsed_seconds : Nat)
deriving DecidableEq

/-- create_event from src/sources/exec/mod.rs lines 445-486.  Utc::now() is
modelled by the explicit parameter now; line.len() is the byte length of the
frame.  Returns the ExecEventReceived emission together with the built
event. -/
def create_event (config : ExecConfig) (hostname : Option String) (line : String)
    (data_stream : Option String) (pid : Option Nat) (now : Nat) :
    ExecEmission × LogEvent :=
  let emission := ExecEmission.execEventReceived config.command_line line.utf8ByteSize
  let log_event : LogEvent := []
  let log_event := LogEvent.insert log_event message_key (Value.bytes line)
  let log_event := LogEvent.insert log_event timestamp_key (Value.timestamp now)
  let log_event := LogEvent.insert log_event source_type_key (Value.bytes "exec")
  let log_event :=
    match data_stream with
    | some ds => LogEvent.insert log_event STREAM_KEY (Value.str ds)
    | none => log_event
  let log_event :=
    match pid with
    | some p => LogEvent.insert log_event PID_KEY (Value.int (Int.ofNat p))
    | none => log_event
  let log_event :=
    match hostname with
    | some h => LogEvent.insert log_event host_key (Value.str h)
    | none => log_event
  let log_event := LogEvent.insert log_event COMMAND_KEY (Value.strArray config.command)
  (emission, log_event)

/-- Observable actions of the receive loop of run_command. -/
inductive RunnerAction
  | sendAttempt (event : LogEvent)
  | closedErrorLogged
deriving DecidableEq

/-- Recognizer for send attempts in a runner action trace. -/
def isSendAttempt : RunnerAction → Bool
  | RunnerAction.sendAttempt _ => true
  | _ => false

/-- The receive loop of run_command (src/sources/exec/mod.rs lines 369-378):
for each (line, stream) pair received from the frame channel, build an event
and attempt a downstream send; a ClosedError is logged and the event dropped,
and the loop continues with the next received frame either way.  The channel
is modelled by the explicit list of frames it will deliver before closing;
sink_accepts n gives the outcome of the n-th send attempt of this run. -/
def run_command_receive_loop (config : ExecConfig) (hostname : Option String)
    (pid : Option Nat) (now : Nat) (sink_accepts : Nat → Bool) :
    List (String × String) → Nat → List RunnerAction
  | [], _ => []
  | (line, stream) :: rest, n =>
    let event := (create_event config hostname line (some stream) pid now).2
    if sink_accepts n then
      RunnerAction.sendAttempt event ::
        run_command_receive_loop config hostname pid now sink_accepts rest (n + 1)
    else
      RunnerAction.sendAttempt event :: RunnerAction.closedErrorLogged ::
        run_command_receive_loop config hostname pid now sink_accepts rest (n + 1)

/-- std::process::ExitStatus: only its code() projection is observed. -/
structure ExitStatus where
  code : Option Int
deriving DecidableEq

/-- Outcome of child.try_wait() in run_command. -/
inductive TryWaitResult
  | ok (status : Option ExitStatus)
  | err
deriving DecidableEq

/-- Tail of run_command after the frame channel closes
(src/sources/exec/mod.rs lines 380-402): match on try_wait, emit
ExecCommandExecuted with the exit code (or none) and the elapsed duration,
and return the runner result.  The io::Error payload of the Err branch is
modelled as Unit. -/
def finish_command_run (config : ExecConfig) (elapsed : Nat) (tw : TryWaitResult) :
    List ExecEmission × Except Unit (Option ExitStatus) :=
  match tw with
  | TryWaitResult.ok (some exit_status) =>
    ([ExecEmission.execCommandExecuted config.command_line exit_status.code elapsed],
      Except.ok (some exit_status))
  | TryWaitResult.ok none =>
    ([ExecEmission.execCommandExecuted config.command_line none elapsed], Except.ok none)
  | TryWaitResult.err =>
    ([ExecEmission.execCommandExecuted config.command_line none elapsed], Except.ok none)

/-- Outcome of one timed runner invocation inside run_scheduled: either the
runner future completed (with the result of run_command, its io::Error
payload modelled as Unit) or the surrounding timeout expired first. -/
inductive RunnerOutcome
  | completed (result : Except Unit (Option ExitStatus))
  | timedOut

/-- What one tick of run_scheduled does: the runner is wrapped in
tokio::time::timeout with the same schedule duration that drives the
interval, and the tick emits telemetry according to the outcome. -/
structure TickRun where
  timeout_secs : Nat
  emissions : List ExecEmission
deriving DecidableEq

/-- One iteration of the interval loop of run_scheduled
(src/sources/exec/mod.rs lines 227-257): the timeout duration is the same
schedule value used for the interval; a timeout emits ExecTimeout with
elapsed_seconds equal to the schedule in seconds, a runner error emits
ExecFailed, and a successful run emits nothing here. -/
def scheduled_tick (config : ExecConfig) (interval_secs : Nat)
    (outcome : RunnerOutcome) : TickRun :=
  { timeout_secs := interval_secs
    emissions :=
      match outcome with
      | RunnerOutcome.completed (Except.ok _) => []
      | RunnerOutcome.completed (Except.error _) =>
        [ExecEmission.execFailed config.command_line]
      | RunnerOutcome.timedOut =>
        [ExecEmission.execTimeout config.command_line interval_secs] }

/-- run_scheduled (src/sources/exec/mod.rs lines 215-261) restricted to its
per-tick behavior: the interval stream (terminated by shutdown) is modelled
by the finite list of runner outcomes observed at the ticks that fired. -/
def run_scheduled (config : ExecConfig) (interval_secs : Nat)
    (outcomes : List RunnerOutcome) : List TickRun :=
  outcomes.map (scheduled_tick config interval_secs)

/-- Modelled from the spec: the SizedBytesCodec implementation
(src/sources/exec/sized_bytes_codec.rs, declared as a module in
src/sources/exec/mod.rs) is not under src/.  Per the spec the sized-blob
codec emits frames of size min(remaining, max_length) with no delimiter
semantics, so decoding a byte sequence chunks it greedily into frames of at
most max_length bytes.  Bytes are modelled generically; the zero guard is
unreachable in the program because ZeroBuffer validation requires a
positive buffer size. -/
def sized_bytes_frames {α : Type} (max_length : Nat) : List α → List (List α)
  | [] => []
  | x :: xs =>
    if _hM : max_length = 0 then []
    else
      (x :: xs).take max_length ::
        sized_bytes_frames max_length ((x :: xs).drop max_length)
termination_by input => input.length
decreasing_by
  simp only [List.length_drop, List.length_cons]
  omega

end Exec

namespace Tcp

/-- A decoded frame of one TCP connection: the small vector of events the
item lifts to (item.into() in handle_stream) together with the ack
source.build_ack computes for the item. -/
structure DecodedFrame (Ev Ack : Type) where
  events : List Ev
  ack : Ack

/-- One result yielded by reader.next() in the read loop of handle_stream:
either a decoded frame or a decoder error classified by
TcpError::can_continue.  The end of the input list models the None result
(peer closed). -/
inductive ReadEvent (Ev Ack : Type)
  | frame (f : DecodedFrame Ev Ack)
  | decodeError (can_continue : Bool)

/-- Observable actions of the read loop of handle_stream: a successful
downstream send of an event, a successful ack write to the socket, the
TcpSendAckError emission on a failed ack write, the warning on a failed
downstream send, the warning on a fatal decode error, and the break on peer
close. -/
inductive TcpAction (Ev Ack : Type)
  | eventSent (e : Ev)
  | ackWritten (a : Ack)
  | tcpSendAckError
  | sendFailedWarning
  | readErrorWarning
  | connectionClosed
deriving DecidableEq

/-- The for loop over the events of one decoded frame in handle_stream
(src/sources/util/tcp.rs lines 244-258): for each event, send it
downstream; on success write the ack to the socket; if the ack write fails,
emit TcpSendAckError and break out of this for loop; if the send fails,
warn and break out of this for loop.  The break statements leave only the
for loop, not the surrounding read loop.  send_ok s and ack_ok a give the
outcomes of the s-th downstream send and the a-th ack write of the
connection; the function returns the action trace together with the updated
send and ack-write counters. -/
def process_frame_events {Ev Ack : Type} (ack : Ack) (send_ok ack_ok : Nat → Bool) :
    List Ev → Nat → Nat → List (TcpAction Ev Ack) × Nat × Nat
  | [], s, a => ([], s, a)
  | e :: rest, s, a =>
    if send_ok s then
      if ack_ok a then
        let next := process_frame_events ack send_ok ack_ok rest (s + 1) (a + 1)
        (TcpAction.eventSent e :: TcpAction.ackWritten ack :: next.1, next.2.1, next.2.2)
      else
        ([TcpAction.eventSent e, TcpAction.tcpSendAckError], s + 1, a + 1)
    else
      ([TcpAction.sendFailedWarning], s + 1, a)

/-- The framed read loop of handle_stream (src/sources/util/tcp.rs lines
219-274) restricted to the reader arm of the select: each decoded frame is
processed by process_frame_events and the loop then continues with the next
read result; a continuable decode error continues the loop, a fatal one
warns and breaks, and a None result (modelled by the end of the list)
breaks after logging that the connection closed. -/
def handle_stream_reads {Ev Ack : Type} (send_ok ack_ok : Nat → Bool) :
    List (ReadEvent Ev Ack) → Nat → Nat → List (TcpAction Ev Ack)
  | [], _, _ => [TcpAction.connectionClosed]
  | ReadEvent.frame f :: rest, s, a =>
    let r := process_frame_events f.ack send_ok ack_ok f.events s a
    r.1 ++ handle_stream_reads send_ok ack_ok rest r.2.1 r.2.2
  | ReadEvent.decodeError c :: rest, s, a =>
    if c then handle_stream_reads send_ok ack_ok rest s a
    else [TcpAction.readErrorWarning]

/-- Recognizer for ack writes in a TCP action trace. -/
def isAckWrite {Ev Ack : Type} : TcpAction Ev Ack → Bool
  | TcpAction.ackWritten _ => true
  | _ => false

/-- Error cases of parse_systemd_fd, identified by the error message the
source builds: must start with systemd, systemd indices start from 1, and
the propagated integer parse error of usize::from_str. -/
inductive SystemdFdError
  | mustStartWithSystemd
  | indicesStartFromOne
  | intParse
deriving DecidableEq

/-- ASCII digit test for usize::from_str. -/
def isAsciiDigit (c : Char) : Bool :=
  48 ≤ c.toNat && c.toNat ≤ 57

/-- Decimal value of a digit string, accumulated left to right exactly as
usize::from_str does. -/
def digitsToNat (ds : List Char) : Nat :=
  ds.foldl (fun acc c => 10 * acc + (c.toNat - 48)) 0

/-- usize::from_str applied to the suffix after systemd#: an optional
leading plus sign followed by at least one ASCII digit; fails on any other
character and on overflow past the 64-bit usize range. -/
def parse_usize (cs : List Char) : Option Nat :=
  let ds := if cs.head? = some '+' then cs.tail else cs
  if ds ≠ [] ∧ ds.all isAsciiDigit = true ∧ digitsToNat ds < 2 ^ 64 then
    some (digitsToNat ds)
  else none

/-- parse_systemd_fd from src/sources/util/tcp.rs lines 309-323: the exact
string systemd maps to offset 0; a string starting with systemd# has its
byte suffix parsed as usize (a parse failure propagates as an integer parse
error) and then checked_sub(1) applied, rejecting 0 with the
indices-start-from-1 error; every other string is rejected with the
must-start-with-systemd error.  The string is modelled through its
character list; the sliced prefix is pure ASCII so byte and character
indices agree. -/
def parse_systemd_fd (s : String) : Except SystemdFdError Nat :=
  if s = "systemd" then Except.ok 0
  else if ("systemd#".data).isPrefixOf s.data then
    match parse_usize (s.data.drop 8) with
    | none => Except.error SystemdFdError.intParse
    | some 0 => Except.error SystemdFdError.indicesStartFromOne
    | some (n + 1) => Except.ok n
  else Except.error SystemdFdError.mustStartWithSystemd

end Tcp

namespace Exec

/-- C8: building an exec source fails with CommandEmpty when the command list
is empty, fails with ZeroBuffer when the command is non-empty but the maximum
buffer size is zero, and for every configuration with a non-empty command and
a positive buffer size validation succeeds and the source builds. -/
theorem exec_config_build_validation (c : ExecConfig) :
    (c.command = [] → c.build = Except.error ExecConfigError.CommandEmpty) ∧
    (c.command ≠ [] → c.maximum_buffer_size_bytes = 0 →
      c.build = Except.error ExecConfigError.ZeroBuffer) ∧
    (c.command ≠ [] → 0 < c.maximum_buffer_size_bytes →
      c.validate = Except.ok () ∧ ∃ src, c.build = Except.ok src) := by
  refine ⟨fun h => ?_, fun h hz => ?_, fun h hp => ?_⟩
  · simp [ExecConfig.build, ExecConfig.validate, h]
  · simp [ExecConfig.build, ExecConfig.validate, List.isEmpty_iff, h, hz]
  · have hv : c.validate = Except.ok () := by
      simp [ExecConfig.validate, List.isEmpty_iff, h, Nat.pos_iff_ne_zero.mp hp]
    refine ⟨hv, ?_⟩
    cases hm : c.mode <;> simp [ExecConfig.build, hv, hm]

/-- Witness for exec_config_build_validation at the default configuration
(non-empty command, one-megabyte buffer). -/
theorem exec_config_build_validation_witness :
    ExecConfig.default.validate = Except.ok () ∧
    ∃ src, ExecConfig.default.build = Except.ok src :=
  (exec_config_build_validation ExecConfig.default).2.2 (by decide) (by decide)

/-- C10: when a configuration violates both validation rules, the
empty-command check takes precedence: an empty command always yields
CommandEmpty, and ZeroBuffer is reported only when the command is
non-empty. -/
theorem validate_command_empty_precedence (c : ExecConfig) :
    (c.command = [] → c.validate = Except.error ExecConfigError.CommandEmpty) ∧
    (c.validate = Except.error ExecConfigError.ZeroBuffer → c.command ≠ []) := by
  constructor
  · intro h
    simp [ExecConfig.validate, h]
  · intro hv h
    simp [ExecConfig.validate, h] at hv

/-- Witness for validate_command_empty_precedence at a configuration that
violates both rules (empty command and zero buffer): CommandEmpty wins. -/
theorem validate_command_empty_precedence_witness :
    ({ ExecConfig.default with command := [], maximum_buffer_size_bytes := 0 }
        : ExecConfig).validate = Except.error ExecConfigError.CommandEmpty :=
  (validate_command_empty_precedence
    { ExecConfig.default with command := [], maximum_buffer_size_bytes := 0 }).1 rfl

/-- C4: the produced exec event contains exactly the fields message (the
frame bytes), timestamp, source_type equal to exec, and command (the
configured command list) always, stream exactly when a stream tag was
supplied, pid exactly when a pid was supplied, host exactly when a hostname
was supplied, and no other fields, in the insertion order message,
timestamp, source_type, stream, pid, host, command. -/
theorem create_event_fields (config : ExecConfig) (hostname : Option String)
    (line : String) (data_stream : Option String) (pid : Option Nat) (now : Nat) :
    (create_event config hostname line data_stream pid now).2 =
      [(message_key, Value.bytes line), (timestamp_key, Value.timestamp now),
        (source_type_key, Value.bytes "exec")] ++
      (match data_stream with
        | some ds => [(STREAM_KEY, Value.str ds)]
        | none => []) ++
      (match pid with
        | some p => [(PID_KEY, Value.int (Int.ofNat p))]
        | none => []) ++
      (match hostname with
        | some h => [(host_key, Value.str h)]
        | none => []) ++
      [(COMMAND_KEY, Value.strArray config.command)] := by
  cases data_stream <;> cases pid <;> cases hostname <;> rfl

/-- C2 counterexample: with a sink that is closed from the first send, the
receive loop logs the ClosedError after the first attempt yet still makes a
second send attempt for the next frame, so a ClosedError is not a signal to
stop attempting further sends on that run. -/
theorem exec_closed_error_counterexample :
    ((run_command_receive_loop ExecConfig.default none none 0 (fun _ => false)
        [("a", "stdout"), ("b", "stdout")] 0).filter isSendAttempt).length = 2 ∧
    (run_command_receive_loop ExecConfig.default none none 0 (fun _ => false)
        [("a", "stdout"), ("b", "stdout")] 0)[1]? =
      some RunnerAction.closedErrorLogged := by
  constructor <;> rfl

/-- C2 amended: on a ClosedError the runner logs and drops the event and
does not abort the receive loop; it keeps draining the channel until it
closes, and it attempts one send for every received frame, including the
frames that follow a ClosedError. -/
theorem exec_closed_error_drain (config : ExecConfig) (hostname : Option String)
    (pid : Option Nat) (now : Nat) (sink_accepts : Nat → Bool)
    (frames : List (String × String)) (n : Nat) :
    ((run_command_receive_loop config hostname pid now sink_accepts frames n).filter
        isSendAttempt).length = frames.length ∧
    (∀ line stream rest, sink_accepts n = false →
      run_command_receive_loop config hostname pid now sink_accepts
          ((line, stream) :: rest) n =
        RunnerAction.sendAttempt (create_event config hostname line (some stream) pid now).2 ::
          RunnerAction.closedErrorLogged ::
          run_command_receive_loop config hostname pid now sink_accepts rest (n + 1)) := by
  constructor
  · induction frames generalizing n with
    | nil => simp [run_command_receive_loop]
    | cons f rest ih =>
      obtain ⟨line, stream⟩ := f
      by_cases h : sink_accepts n = true
      · simp [run_command_receive_loop, h, isSendAttempt, ih]
      · simp only [Bool.not_eq_true] at h
        simp [run_command_receive_loop, h, isSendAttempt, ih]
  · intro line stream rest h
    simp [run_command_receive_loop, h]

/-- Witness for exec_closed_error_drain: one frame against a closed sink. -/
theorem exec_closed_error_drain_witness :
    run_command_receive_loop ExecConfig.default none none 0 (fun _ => false)
        [("a", "stdout")] 0 =
      [RunnerAction.sendAttempt
          (create_event ExecConfig.default none "a" (some "stdout") none 0).2,
        RunnerAction.closedErrorLogged] := by
  have h := (exec_closed_error_drain ExecConfig.default none none 0 (fun _ => false)
    [("a", "stdout")] 0).2 "a" "stdout" [] rfl
  exact h

/-- C7: after the frame channel closes the runner returns Ok regardless of
the exit code: Ok (some status) when try_wait yields an exit status, Ok none
both when the child has not exited and when try_wait errors, in every case
emitting ExecCommandExecuted with the exit code or none and the elapsed
duration, and never an error. -/
theorem finish_command_run_ok (config : ExecConfig) (elapsed : Nat) (tw : TryWaitResult) :
    (∀ st, tw = TryWaitResult.ok (some st) →
      finish_command_run config elapsed tw =
        ([ExecEmission.execCommandExecuted config.command_line st.code elapsed],
          Except.ok (some st))) ∧
    ((tw = TryWaitResult.ok none ∨ tw = TryWaitResult.err) →
      finish_command_run config elapsed tw =
        ([ExecEmission.execCommandExecuted config.command_line none elapsed],
          Except.ok none)) ∧
    (∀ e, (finish_command_run config elapsed tw).2 ≠ Except.error e) := by
  refine ⟨fun st hst => ?_, fun h => ?_, fun e => ?_⟩
  · subst hst; rfl
  · rcases h with h | h <;> subst h <;> rfl
  · rcases tw with ⟨_ | _⟩ | _ <;> simp [finish_command_run]

/-- Witness for finish_command_run_ok: a non-zero exit code 3 is returned as
Ok, not as an error. -/
theorem finish_command_run_ok_witness :
    finish_command_run ExecConfig.default 7 (TryWaitResult.ok (some { code := some 3 })) =
      ([ExecEmission.execCommandExecuted ExecConfig.default.command_line (some 3) 7],
        Except.ok (some { code := some 3 })) :=
  (finish_command_run_ok ExecConfig.default 7
    (TryWaitResult.ok (some { code := some 3 }))).1 { code := some 3 } rfl

/-- C6: in scheduled mode every tick wraps the runner in a timeout whose
duration equals the interval; expiry emits ExecTimeout with elapsed_seconds
equal to the interval, a runner error emits ExecFailed, and a completed run
emits nothing at the supervisor level. -/
theorem run_scheduled_timeout_spec (config : ExecConfig) (interval_secs : Nat)
    (outcomes : List RunnerOutcome) :
    (∀ t ∈ run_scheduled config interval_secs outcomes, t.timeout_secs = interval_secs) ∧
    (scheduled_tick config interval_secs RunnerOutcome.timedOut).emissions =
      [ExecEmission.execTimeout config.command_line interval_secs] ∧
    (∀ e, (scheduled_tick config interval_secs
        (RunnerOutcome.completed (Except.error e))).emissions =
      [ExecEmission.execFailed config.command_line]) ∧
    (∀ r, (scheduled_tick config interval_secs
        (RunnerOutcome.completed (Except.ok r))).emissions = []) := by
  refine ⟨fun t ht => ?_, rfl, fun e => rfl, fun r => rfl⟩
  simp only [run_scheduled, List.mem_map] at ht
  obtain ⟨o, _, rfl⟩ := ht
  rfl

/-- Witness for run_scheduled_timeout_spec: a single timed-out tick at the
default 60 second interval has a 60 second timeout. -/
theorem run_scheduled_timeout_spec_witness :
    (scheduled_tick ExecConfig.default 60 RunnerOutcome.timedOut).timeout_secs = 60 :=
  (run_scheduled_timeout_spec ExecConfig.default 60 [RunnerOutcome.timedOut]).1
    (scheduled_tick ExecConfig.default 60 RunnerOutcome.timedOut)
    (by simp [run_scheduled])

theorem sized_bytes_frames_nil_eq {α : Type} (M : Nat) :
    sized_bytes_frames M ([] : List α) = [] := by
  rw [sized_bytes_frames]

theorem sized_bytes_frames_cons_eq {α : Type} (M : Nat) (hM : M ≠ 0)
    (x : α) (xs : List α) :
    sized_bytes_frames M (x :: xs) =
      (x :: xs).take M :: sized_bytes_frames M ((x :: xs).drop M) := by
  rw [sized_bytes_frames, dif_neg hM]

theorem sized_bytes_frames_bounded {α : Type} (M : Nat) (hM : M ≠ 0) :
    ∀ (n : Nat) (l : List α), l.length ≤ n →
      (sized_bytes_frames M l).flatten = l ∧
      (∀ f ∈ sized_bytes_frames M l, f.length ≤ M) ∧
      (∀ f ∈ (sized_bytes_frames M l).dropLast, f.length = M) := by
  intro n
  induction n with
  | zero =>
    intro l hl
    have hnil : l = [] := by
      cases l with
      | nil => rfl
      | cons x xs => simp at hl
    subst hnil
    simp [sized_bytes_frames_nil_eq]
  | succ n ih =>
    intro l hl
    cases l with
    | nil => simp [sized_bytes_frames_nil_eq]
    | cons x xs =>
      rw [sized_bytes_frames_cons_eq M hM]
      have hdrop : ((x :: xs).drop M).length ≤ n := by
        simp only [List.length_drop, List.length_cons]
        simp only [List.length_cons] at hl
        omega
      obtain ⟨ihj, ihb, ihd⟩ := ih ((x :: xs).drop M) hdrop
      refine ⟨?_, ?_, ?_⟩
      · simp only [List.flatten_cons, ihj]
        exact List.take_append_drop M (x :: xs)
      · intro f hf
        rcases List.mem_cons.mp hf with rfl | hf
        · simp [List.length_take]
        · exact ihb f hf
      · by_cases hdnil : (x :: xs).drop M = []
        · have h0 : sized_bytes_frames M ((x :: xs).drop M) = [] := by
            rw [hdnil, sized_bytes_frames_nil_eq]
          simp [h0]
        · have htail : sized_bytes_frames M ((x :: xs).drop M) ≠ [] := by
            cases hE : (x :: xs).drop M with
            | nil => exact absurd hE hdnil
            | cons y ys =>
              rw [sized_bytes_frames_cons_eq M hM]
              simp
          intro f hf
          rw [List.dropLast_cons_of_ne_nil htail] at hf
          rcases List.mem_cons.mp hf with rfl | hf
          · have hlt : M < (x :: xs).length := by
              by_contra hge
              exact hdnil (List.drop_eq_nil_iff.mpr (by omega))
            simp only [List.length_take]
            omega
          · exact ihd f hf

/-- C9: for every input byte sequence decoded through the sized-blob codec
with positive max_length M, concatenating the emitted frames reproduces the
input, every frame has length at most M, and every frame except possibly
the last has length exactly M. -/
theorem sized_bytes_codec_fidelity {α : Type} (M : Nat) (B : List α) (hM : 0 < M) :
    (sized_bytes_frames M B).flatten = B ∧
    (∀ f ∈ sized_bytes_frames M B, f.length ≤ M) ∧
    (∀ f ∈ (sized_bytes_frames M B).dropLast, f.length = M) :=
  sized_bytes_frames_bounded M (Nat.pos_iff_ne_zero.mp hM) B.length B le_rfl

/-- Witness for sized_bytes_codec_fidelity: a five-byte input with
max_length 2 splits into frames of sizes 2, 2, 1 whose concatenation is the
input. -/
theorem sized_bytes_codec_fidelity_witness :
    (sized_bytes_frames 2 [10, 20, 30, 40, 50]).flatten = [10, 20, 30, 40, 50] ∧
    sized_bytes_frames 2 [10, 20, 30, 40, 50] = [[10, 20], [30, 40], [50]] :=
  ⟨(sized_bytes_codec_fidelity 2 [10, 20, 30, 40, 50] (by decide)).1,
    by simp [sized_bytes_frames_cons_eq 2 (by decide), sized_bytes_frames_nil_eq]⟩

end Exec

namespace Tcp

/-- C1 counterexample: the break statements in the event loop of
handle_stream leave only the for loop over the events of the current frame,
not the framed read loop.  With two single-event frames, a failed ack write
on the first frame emits TcpSendAckError but the handler still reads the
second frame and sends its event; likewise a failed downstream send on the
first frame only warns and the read loop continues, so neither failure
terminates the connection. -/
theorem tcp_ack_failure_counterexample :
    @handle_stream_reads Nat Nat (fun _ => true) (fun a => a != 0)
        [ReadEvent.frame ⟨[5], 100⟩, ReadEvent.frame ⟨[6], 101⟩] 0 0 =
      [TcpAction.eventSent 5, TcpAction.tcpSendAckError,
        TcpAction.eventSent 6, TcpAction.ackWritten 101,
        TcpAction.connectionClosed] ∧
    @handle_stream_reads Nat Nat (fun s => s != 0) (fun _ => true)
        [ReadEvent.frame ⟨[5], 100⟩, ReadEvent.frame ⟨[6], 101⟩] 0 0 =
      [TcpAction.sendFailedWarning,
        TcpAction.eventSent 6, TcpAction.ackWritten 101,
        TcpAction.connectionClosed] := by
  constructor <;> rfl

/-- C1 amended: if the ack write fails after a successful downstream send,
the handler emits TcpSendAckError and stops delivering the remaining events
of the current frame only; if a downstream send fails, it warns and stops
the current frame only.  In both cases the framed read loop continues with
the next read result, so the connection is not closed by these failures. -/
theorem tcp_ack_failure_frame_scope {Ev Ack : Type} (send_ok ack_ok : Nat → Bool)
    (f : DecodedFrame Ev Ack) (rest : List (ReadEvent Ev Ack)) (s a : Nat)
    (e : Ev) (es : List Ev) :
    (handle_stream_reads send_ok ack_ok (ReadEvent.frame f :: rest) s a =
      (process_frame_events f.ack send_ok ack_ok f.events s a).1 ++
        handle_stream_reads send_ok ack_ok rest
          (process_frame_events f.ack send_ok ack_ok f.events s a).2.1
          (process_frame_events f.ack send_ok ack_ok f.events s a).2.2) ∧
    (f.events = e :: es → send_ok s = true → ack_ok a = false →
      (process_frame_events f.ack send_ok ack_ok f.events s a).1 =
        [TcpAction.eventSent e, TcpAction.tcpSendAckError]) ∧
    (f.events = e :: es → send_ok s = false →
      (process_frame_events f.ack send_ok ack_ok f.events s a).1 =
        [TcpAction.sendFailedWarning]) := by
  refine ⟨rfl, fun hf hs ha => ?_, fun hf hs => ?_⟩
  · rw [hf]
    simp [process_frame_events, hs, ha]
  · rw [hf]
    simp [process_frame_events, hs]

/-- Witness for tcp_ack_failure_frame_scope: one single-event frame whose
ack write fails yields the send followed by the TcpSendAckError emission. -/
theorem tcp_ack_failure_frame_scope_witness :
    (@process_frame_events Nat Nat 100 (fun _ => true) (fun _ => false) [5] 0 0).1 =
      [TcpAction.eventSent 5, TcpAction.tcpSendAckError] :=
  (tcp_ack_failure_frame_scope (fun _ => true) (fun _ => false)
    ⟨[5], 100⟩ [] 0 0 5 []).2.1 rfl rfl rfl

/-- C3 counterexample: a frame that lifts to two events produces two ack
writes, not one, and the first ack write happens before the second event of
the frame has been accepted downstream. -/
theorem tcp_ack_per_event_counterexample :
    @handle_stream_reads Nat Nat (fun _ => true) (fun _ => true)
        [ReadEvent.frame ⟨[5, 6], 100⟩] 0 0 =
      [TcpAction.eventSent 5, TcpAction.ackWritten 100,
        TcpAction.eventSent 6, TcpAction.ackWritten 100,
        TcpAction.connectionClosed] ∧
    ((@handle_stream_reads Nat Nat (fun _ => true) (fun _ => true)
        [ReadEvent.frame ⟨[5, 6], 100⟩] 0 0).filter isAckWrite).length = 2 := by
  constructor <;> rfl

/-- C3 amended: the handler writes one ack per accepted event rather than
one per frame.  When every decoded frame lifts to exactly one event and all
sends and ack writes succeed, exactly one ack is written per frame, the
acks appear in frame order, and the ack of frame i is written immediately
after the event of frame i is accepted downstream. -/
theorem tcp_ack_ordering_single_event_frames {Ev Ack : Type}
    (l : List (Ev × Ack)) (s a : Nat) :
    handle_stream_reads (fun _ => true) (fun _ => true)
        (l.map (fun p => ReadEvent.frame ⟨[p.1], p.2⟩)) s a =
      (l.map (fun p => [TcpAction.eventSent p.1, TcpAction.ackWritten p.2])).flatten
        ++ [TcpAction.connectionClosed] := by
  induction l generalizing s a with
  | nil => rfl
  | cons p rest ih =>
    obtain ⟨e, k⟩ := p
    simp [handle_stream_reads, process_frame_events, ih]

/-- C5 counterexample: a string that starts with systemd# but whose suffix
is not an unsigned integer is rejected with the propagated integer parse
error, not with the error stating it must start with systemd. -/
theorem systemd_fd_error_counterexample :
    parse_systemd_fd "systemd#x" = Except.error SystemdFdError.intParse ∧
    SystemdFdError.intParse ≠ SystemdFdError.mustStartWithSystemd := by
  constructor
  · rfl
  · decide

/-- C5 amended: the exact string systemd maps to FD offset 0; systemd#N
with an all-digit suffix of value N at least 1 maps to offset N minus 1;
systemd#0 is rejected with the error stating systemd indices start from 1;
a string starting with systemd# whose suffix does not parse as usize is
rejected with the propagated integer parse error; every string that is not
systemd and does not start with systemd# is rejected with the error stating
it must start with systemd. -/
theorem parse_systemd_fd_spec (s : String) (ds : List Char) :
    parse_systemd_fd "systemd" = Except.ok 0 ∧
    (ds ≠ [] → ds.all isAsciiDigit = true → digitsToNat ds < 2 ^ 64 →
      1 ≤ digitsToNat ds →
      parse_systemd_fd (String.mk ("systemd#".data ++ ds)) =
        Except.ok (digitsToNat ds - 1)) ∧
    (ds ≠ [] → ds.all isAsciiDigit = true → digitsToNat ds < 2 ^ 64 →
      digitsToNat ds = 0 →
      parse_systemd_fd (String.mk ("systemd#".data ++ ds)) =
        Except.error SystemdFdError.indicesStartFromOne) ∧
    (parse_usize ds = none →
      parse_systemd_fd (String.mk ("systemd#".data ++ ds)) =
        Except.error SystemdFdError.intParse) ∧
    (("systemd#".data).isPrefixOf s.data = false → s ≠ "systemd" →
      parse_systemd_fd s = Except.error SystemdFdError.mustStartWithSystemd) := by
  have h8 : ("systemd#".data).length = 8 := rfl
  have h7 : ("systemd".data).length = 7 := rfl
  have hne : String.mk ("systemd#".data ++ ds) ≠ "systemd" := by
    intro h
    have hlen : ("systemd#".data ++ ds).length = ("systemd".data).length :=
      congrArg (fun t => t.data.length) h
    rw [List.length_append, h8, h7] at hlen
    omega
  have hpre : ("systemd#".data).isPrefixOf ("systemd#".data ++ ds) = true := by
    rw [List.isPrefixOf_iff_prefix]
    exact List.prefix_append _ _
  have hdrop : ("systemd#".data ++ ds).drop 8 = ds := by
    have := List.drop_left ("systemd#".data) ds
    rwa [h8] at this
  have hparse : ds ≠ [] → ds.all isAsciiDigit = true → digitsToNat ds < 2 ^ 64 →
      parse_usize ds = some (digitsToNat ds) := by
    intro hds hall hlt
    have hhead : ds.head? ≠ some '+' := by
      cases ds with
      | nil => simp
      | cons c cs =>
        simp only [List.all_cons, Bool.and_eq_true] at hall
        intro hc
        simp only [List.head?_cons, Option.some.injEq] at hc
        rw [hc] at hall
        exact absurd hall.1 (by decide)
    simp only [parse_usize, if_neg hhead]
    rw [if_pos ⟨hds, hall, hlt⟩]
  refine ⟨rfl, fun hds hall hlt h1 => ?_, fun hds hall hlt h0 => ?_,
    fun hnone => ?_, fun hp hs => ?_⟩
  · obtain ⟨w, hw⟩ : ∃ w, digitsToNat ds = w + 1 := ⟨digitsToNat ds - 1, by omega⟩
    simp only [parse_systemd_fd]
    rw [if_neg hne, if_pos hpre, hdrop, hparse hds hall hlt, hw]
    simp
  · simp only [parse_systemd_fd]
    rw [if_neg hne, if_pos hpre, hdrop, hparse hds hall hlt, h0]
  · simp only [parse_systemd_fd]
    rw [if_neg hne, if_pos hpre, hdrop, hnone]
  · simp only [parse_systemd_fd]
    rw [if_neg hs, if_neg (by simp [hp])]

/-- Witness for parse_systemd_fd_spec at the literal inputs of the spec
scenario: systemd#3 yields offset 2, systemd#0 is rejected for starting
from 0, and an address like http://x is rejected for not starting with
systemd. -/
theorem parse_systemd_fd_spec_witness :
    parse_systemd_fd "systemd#3" = Except.ok 2 ∧
    parse_systemd_fd "systemd#0" = Except.error SystemdFdError.indicesStartFromOne ∧
    parse_systemd_fd "http://x" = Except.error SystemdFdError.mustStartWithSystemd := by
  refine ⟨?_, ?_, ?_⟩
  · exact (parse_systemd_fd_spec "http://x" ['3']).2.1 (by decide) rfl (by decide) (by decide)
  · exact (parse_systemd_fd_spec "http://x" ['0']).2.2.1 (by decide) rfl (by decide) rfl
  · exact (parse_systemd_fd_spec "http://x" ['3']).2.2.2.2 (by decide) (by decide)

end Tcp
